import Mathlib

/-!
Verification of the data-access layer and client of a small finance
application (SQLite store for OHLCV bars, predictions, news, watchlists,
plus a quote-provider HTTP client).

The embedding models the SQLite database as explicit lists of rows per
table, with per-table AUTOINCREMENT counters.  Each operation of
`database.py` is translated to a pure function on this state.  SQLite
semantics that the code relies on are modelled explicitly:

* `INSERT OR IGNORE` with a UNIQUE constraint: the row is appended only
  when no existing row matches the natural key; otherwise the insert is a
  silent no-op.
* `UNIQUE` on a nullable column (`news_articles.url`): NULL values never
  conflict, so rows with a NULL url are always inserted.
* `cursor.lastrowid` on a fresh cursor: `None` initially, updated only by
  a successful insert (Python sqlite3 semantics), so an ignored
  `INSERT OR IGNORE` returns `None`.
* `ORDER BY ... DESC LIMIT n`: modelled as insertion sort by the
  descending relation followed by `take n`.
-/

namespace FeatherFinance

/-- One row of the `stock_data` table (setup_database.py, OHLCV bars).
`UNIQUE(ticker, timestamp)`.  Prices are DECIMAL, modelled as `Rat`. -/
structure StockDataRow where
  id : Nat
  ticker : String
  open_ : Rat
  high : Rat
  low : Rat
  close : Rat
  volume : Int
  timestamp : Int
  deriving Repr, DecidableEq

/-- The dict argument of `Database.insert_stock_data`. -/
structure StockDataInsert where
  ticker : String
  open_ : Rat
  high : Rat
  low : Rat
  close : Rat
  volume : Int
  timestamp : Int
  deriving Repr, DecidableEq

/-- One row of the `stocks` reference table.  `ticker` is UNIQUE. -/
structure StockRow where
  id : Nat
  ticker : String
  name : String
  sector : String
  deriving Repr, DecidableEq

/-- One row of the `predictions` table.  `timestamp` has DEFAULT
CURRENT_TIMESTAMP; no uniqueness constraint. -/
structure PredictionRow where
  id : Nat
  ticker : String
  predicted_trend : String
  confidence : Rat
  predicted_change : Option Rat
  model_version : String
  timestamp : Int
  deriving Repr, DecidableEq

/-- The dict argument of `Database.insert_prediction` (the stored
`timestamp` is filled in by SQLite's CURRENT_TIMESTAMP default, which the
embedding passes explicitly as `now`). -/
structure PredictionInsert where
  ticker : String
  predicted_trend : String
  confidence : Rat
  predicted_change : Option Rat
  model_version : String
  deriving Repr, DecidableEq

/-- One row of the `news_articles` table.  `url` is nullable and UNIQUE;
in SQLite a NULL never conflicts with anything. -/
structure NewsRow where
  id : Nat
  ticker : String
  headline : String
  summary : Option String
  sentiment : Option String
  source : Option String
  url : Option String
  created_at : Int
  deriving Repr, DecidableEq

/-- The dict argument of `Database.insert_news_article`. -/
structure NewsInsert where
  ticker : String
  headline : String
  summary : Option String
  sentiment : Option String
  source : Option String
  url : Option String
  deriving Repr, DecidableEq

/-- One row of the `watchlists` table.  `UNIQUE(user_id, ticker)`;
`added_at` has DEFAULT CURRENT_TIMESTAMP. -/
structure WatchlistRow where
  id : Nat
  user_id : Nat
  ticker : String
  added_at : Int
  deriving Repr, DecidableEq

/-- The database state: one list of rows per table touched by the data
access layer, plus the AUTOINCREMENT counter of each table.  Counters
start at 1, mirroring SQLite rowids. -/
structure DB where
  stocks : List StockRow
  stock_data : List StockDataRow
  predictions : List PredictionRow
  news_articles : List NewsRow
  watchlists : List WatchlistRow
  stocksNext : Nat
  stockDataNext : Nat
  predictionsNext : Nat
  newsNext : Nat
  watchlistsNext : Nat
  deriving Repr, DecidableEq

/-- The freshly created database: `setup_database.py` has created all
tables but inserted nothing yet. -/
def emptyDB : DB :=
  { stocks := [], stock_data := [], predictions := [], news_articles := []
    watchlists := [], stocksNext := 1, stockDataNext := 1
    predictionsNext := 1, newsNext := 1, watchlistsNext := 1 }

/-- `Database.insert_stock_data` (database.py lines 36-60):
`INSERT OR IGNORE INTO stock_data (ticker, open, high, low, close,
volume, timestamp)`.  The `UNIQUE(ticker, timestamp)` constraint makes
the insert a no-op when a row with the same (ticker, timestamp) already
exists; `cursor.lastrowid` is then still `None` because the cursor is
fresh.  Returns the new state and the Python return value. -/
def insert_stock_data (db : DB) (data : StockDataInsert) :
    DB × Option Nat :=
  if ∃ r ∈ db.stock_data,
      r.ticker = data.ticker ∧ r.timestamp = data.timestamp then
    (db, none)
  else
    let row : StockDataRow :=
      { id := db.stockDataNext, ticker := data.ticker, open_ := data.open_
        high := data.high, low := data.low, close := data.close
        volume := data.volume, timestamp := data.timestamp }
    ({ db with stock_data := db.stock_data ++ [row]
               stockDataNext := db.stockDataNext + 1 },
     some db.stockDataNext)

/-- At most one `stock_data` row per (ticker, timestamp): the natural-key
invariant enforced by `UNIQUE(ticker, timestamp)`. -/
def StockDataKeyUnique (db : DB) : Prop :=
  db.stock_data.Pairwise
    (fun a b => ¬(a.ticker = b.ticker ∧ a.timestamp = b.timestamp))

/-- The rows of `stock_data` matching a given natural key. -/
def stockDataRowsFor (db : DB) (ticker : String) (timestamp : Int) :
    List StockDataRow :=
  db.stock_data.filter (fun r => r.ticker = ticker ∧ r.timestamp = timestamp)

/-- In a list whose elements pairwise never both satisfy `p`, if some
element satisfies `p` then the filter by `p` has exactly one element. -/
theorem length_filter_eq_one_of_key {α : Type} (p : α → Bool) (l : List α)
    (hp : l.Pairwise fun a b => ¬(p a = true ∧ p b = true))
    (hex : ∃ a ∈ l, p a = true) :
    (l.filter p).length = 1 := by
  induction l with
  | nil => simp at hex
  | cons a l ih =>
    by_cases ha : p a = true
    · have hnone : ∀ b ∈ l, ¬ p b = true := by
        intro b hb hpb
        exact (List.pairwise_cons.mp hp).1 b hb ⟨ha, hpb⟩
      have hnil : l.filter p = [] := by
        rw [List.filter_eq_nil_iff]
        intro b hb
        simpa using hnone b hb
      simp [List.filter_cons, ha, hnil]
    · rw [List.filter_cons_of_neg (by simpa using ha)]
      apply ih (List.pairwise_cons.mp hp).2
      rcases hex with ⟨x, hx, hpx⟩
      rcases List.mem_cons.mp hx with rfl | hx
      · exact absurd hpx ha
      · exact ⟨x, hx, hpx⟩

theorem insert_stock_data_of_mem (db : DB) (d : StockDataInsert)
    (h : ∃ r ∈ db.stock_data,
      r.ticker = d.ticker ∧ r.timestamp = d.timestamp) :
    insert_stock_data db d = (db, none) := by
  unfold insert_stock_data
  simp only [h, if_true]

theorem insert_stock_data_key_mem (db : DB) (d : StockDataInsert) :
    ∃ r ∈ (insert_stock_data db d).1.stock_data,
      r.ticker = d.ticker ∧ r.timestamp = d.timestamp := by
  by_cases h : ∃ r ∈ db.stock_data,
      r.ticker = d.ticker ∧ r.timestamp = d.timestamp
  · rw [insert_stock_data_of_mem db d h]
    exact h
  · unfold insert_stock_data
    simp only [h, if_false]
    refine ⟨{ id := db.stockDataNext, ticker := d.ticker, open_ := d.open_
              high := d.high, low := d.low, close := d.close
              volume := d.volume, timestamp := d.timestamp }, ?_, rfl, rfl⟩
    simp

theorem insert_stock_data_preserves_unique (db : DB) (d : StockDataInsert)
    (hu : StockDataKeyUnique db) :
    StockDataKeyUnique (insert_stock_data db d).1 := by
  by_cases h : ∃ r ∈ db.stock_data,
      r.ticker = d.ticker ∧ r.timestamp = d.timestamp
  · rw [insert_stock_data_of_mem db d h]
    exact hu
  · unfold insert_stock_data
    simp only [h, if_false]
    unfold StockDataKeyUnique at hu ⊢
    simp only [List.pairwise_append, List.pairwise_singleton]
    refine ⟨hu, by simp, ?_⟩
    intro a ha b hb
    simp only [List.mem_singleton] at hb
    subst hb
    intro hcon
    exact h ⟨a, ha, by simpa using hcon⟩

/-- A concrete OHLCV record (the example in `database.py`). -/
def sampleBar : StockDataInsert :=
  { ticker := "AAPL", open_ := 270, high := 272, low := 269, close := 271
    volume := 45000000, timestamp := 1730419200 }

/-- C1: for every OHLCV record r, calling `insert_stock_data(r)` twice (or
inserting any second record r' with the same (ticker, timestamp)) leaves
exactly one stored row for that (ticker, timestamp); the second insert is
a complete no-op that does not alter any field of the first row. -/
theorem insert_stock_data_duplicate_noop (db : DB) (r r' : StockDataInsert)
    (hu : StockDataKeyUnique db)
    (ht : r'.ticker = r.ticker) (hts : r'.timestamp = r.timestamp) :
    insert_stock_data (insert_stock_data db r).1 r' =
      ((insert_stock_data db r).1, none) ∧
    (stockDataRowsFor (insert_stock_data (insert_stock_data db r).1 r').1
        r.ticker r.timestamp).length = 1 := by
  have hmem := insert_stock_data_key_mem db r
  have hu1 := insert_stock_data_preserves_unique db r hu
  have hmem' : ∃ row ∈ (insert_stock_data db r).1.stock_data,
      row.ticker = r'.ticker ∧ row.timestamp = r'.timestamp := by
    rw [ht, hts]; exact hmem
  have hnoop : insert_stock_data (insert_stock_data db r).1 r' =
      ((insert_stock_data db r).1, none) :=
    insert_stock_data_of_mem _ r' hmem'
  refine ⟨hnoop, ?_⟩
  rw [hnoop]
  unfold stockDataRowsFor
  apply length_filter_eq_one_of_key
  · apply hu1.imp
    intro a b hab hcon
    simp only [decide_eq_true_eq] at hcon
    exact hab ⟨hcon.1.1.trans hcon.2.1.symm, hcon.1.2.trans hcon.2.2.symm⟩
  · rcases hmem with ⟨row, hrow, hk1, hk2⟩
    exact ⟨row, hrow, by simp [hk1, hk2]⟩

/-- C1 witness: inserting the sample bar twice into the fresh database. -/
theorem insert_stock_data_duplicate_noop_witness :
    insert_stock_data (insert_stock_data emptyDB sampleBar).1 sampleBar =
      ((insert_stock_data emptyDB sampleBar).1, none) ∧
    (stockDataRowsFor
        (insert_stock_data (insert_stock_data emptyDB sampleBar).1
          sampleBar).1
        sampleBar.ticker sampleBar.timestamp).length = 1 :=
  insert_stock_data_duplicate_noop emptyDB sampleBar sampleBar
    (by unfold StockDataKeyUnique emptyDB; simp) rfl rfl

/-- C2: `insert_stock_data` returns the id of the newly inserted row when
the insert succeeds, and `none` when it is ignored because a row with the
same (ticker, timestamp) already exists. -/
theorem insert_stock_data_return_value (db : DB) (d : StockDataInsert) :
    ((∃ r ∈ db.stock_data,
        r.ticker = d.ticker ∧ r.timestamp = d.timestamp) →
      insert_stock_data db d = (db, none)) ∧
    ((¬∃ r ∈ db.stock_data,
        r.ticker = d.ticker ∧ r.timestamp = d.timestamp) →
      ∃ row, (insert_stock_data db d).1.stock_data =
          db.stock_data ++ [row] ∧
        (insert_stock_data db d).2 = some row.id) := by
  constructor
  · intro h
    unfold insert_stock_data
    simp only [h, if_true]
  · intro h
    unfold insert_stock_data
    simp only [h, if_false]
    exact ⟨_, rfl, rfl⟩

/-- C2 witness: a fresh insert returns the new row's id; re-inserting the
same bar returns `none`. -/
theorem insert_stock_data_return_value_witness :
    (∃ row, (insert_stock_data emptyDB sampleBar).1.stock_data =
        emptyDB.stock_data ++ [row] ∧
      (insert_stock_data emptyDB sampleBar).2 = some row.id) ∧
    insert_stock_data (insert_stock_data emptyDB sampleBar).1 sampleBar =
      ((insert_stock_data emptyDB sampleBar).1, none) :=
  ⟨(insert_stock_data_return_value emptyDB sampleBar).2 (by decide),
   (insert_stock_data_return_value (insert_stock_data emptyDB sampleBar).1
      sampleBar).1 (by decide)⟩

/-- `Database.add_to_watchlist` (database.py lines 112-126):
`INSERT OR IGNORE INTO watchlists (user_id, ticker)`.  The
`UNIQUE(user_id, ticker)` constraint makes the insert a silent no-op when
the membership already exists.  `added_at` is filled by SQLite's
CURRENT_TIMESTAMP default, passed explicitly as `now`. -/
def add_to_watchlist (db : DB) (user_id : Nat) (ticker : String)
    (now : Int) : DB × Option Nat :=
  if ∃ w ∈ db.watchlists, w.user_id = user_id ∧ w.ticker = ticker then
    (db, none)
  else
    ({ db with
        watchlists := db.watchlists ++
          [{ id := db.watchlistsNext, user_id := user_id, ticker := ticker
             added_at := now }]
        watchlistsNext := db.watchlistsNext + 1 },
     some db.watchlistsNext)

/-- At most one watchlist row per (user_id, ticker): the natural-key
invariant enforced by `UNIQUE(user_id, ticker)`. -/
def WatchlistKeyUnique (db : DB) : Prop :=
  db.watchlists.Pairwise
    (fun a b => ¬(a.user_id = b.user_id ∧ a.ticker = b.ticker))

/-- The watchlist rows matching a given (user_id, ticker) pair. -/
def watchlistRowsFor (db : DB) (user_id : Nat) (ticker : String) :
    List WatchlistRow :=
  db.watchlists.filter (fun w => w.user_id = user_id ∧ w.ticker = ticker)

theorem add_to_watchlist_of_mem (db : DB) (u : Nat) (t : String) (now : Int)
    (h : ∃ w ∈ db.watchlists, w.user_id = u ∧ w.ticker = t) :
    add_to_watchlist db u t now = (db, none) := by
  unfold add_to_watchlist
  simp only [h, if_true]

theorem add_to_watchlist_key_mem (db : DB) (u : Nat) (t : String)
    (now : Int) :
    ∃ w ∈ (add_to_watchlist db u t now).1.watchlists,
      w.user_id = u ∧ w.ticker = t := by
  by_cases h : ∃ w ∈ db.watchlists, w.user_id = u ∧ w.ticker = t
  · rw [add_to_watchlist_of_mem db u t now h]
    exact h
  · unfold add_to_watchlist
    simp only [h, if_false]
    refine ⟨{ id := db.watchlistsNext, user_id := u, ticker := t
              added_at := now }, ?_, rfl, rfl⟩
    simp

theorem add_to_watchlist_preserves_unique (db : DB) (u : Nat) (t : String)
    (now : Int) (hu : WatchlistKeyUnique db) :
    WatchlistKeyUnique (add_to_watchlist db u t now).1 := by
  by_cases h : ∃ w ∈ db.watchlists, w.user_id = u ∧ w.ticker = t
  · rw [add_to_watchlist_of_mem db u t now h]
    exact hu
  · unfold add_to_watchlist
    simp only [h, if_false]
    unfold WatchlistKeyUnique at hu ⊢
    simp only [List.pairwise_append, List.pairwise_singleton]
    refine ⟨hu, by simp, ?_⟩
    intro a ha b hb
    simp only [List.mem_singleton] at hb
    subst hb
    intro hcon
    exact h ⟨a, ha, by simpa using hcon⟩

/-- C5: adding the same (user_id, ticker) to a watchlist twice leaves
exactly one membership row for the pair; the duplicate add is silently
ignored (returns `none`), not an error. -/
theorem add_to_watchlist_duplicate_noop (db : DB) (u : Nat) (t : String)
    (now now' : Int) (hu : WatchlistKeyUnique db) :
    add_to_watchlist (add_to_watchlist db u t now).1 u t now' =
      ((add_to_watchlist db u t now).1, none) ∧
    (watchlistRowsFor (add_to_watchlist (add_to_watchlist db u t now).1
        u t now').1 u t).length = 1 := by
  have hmem := add_to_watchlist_key_mem db u t now
  have hu1 := add_to_watchlist_preserves_unique db u t now hu
  have hnoop : add_to_watchlist (add_to_watchlist db u t now).1 u t now' =
      ((add_to_watchlist db u t now).1, none) :=
    add_to_watchlist_of_mem _ u t now' hmem
  refine ⟨hnoop, ?_⟩
  rw [hnoop]
  unfold watchlistRowsFor
  apply length_filter_eq_one_of_key
  · apply hu1.imp
    intro a b hab hcon
    simp only [decide_eq_true_eq] at hcon
    exact hab ⟨hcon.1.1.trans hcon.2.1.symm, hcon.1.2.trans hcon.2.2.symm⟩
  · rcases hmem with ⟨w, hw, hk1, hk2⟩
    exact ⟨w, hw, by simp [hk1, hk2]⟩

/-- C5 witness: adding AAPL to user 1's watchlist twice in the fresh
database. -/
theorem add_to_watchlist_duplicate_noop_witness :
    add_to_watchlist (add_to_watchlist emptyDB 1 "AAPL" 10).1
        1 "AAPL" 20 =
      ((add_to_watchlist emptyDB 1 "AAPL" 10).1, none) ∧
    (watchlistRowsFor (add_to_watchlist
        (add_to_watchlist emptyDB 1 "AAPL" 10).1 1 "AAPL" 20).1
        1 "AAPL").length = 1 :=
  add_to_watchlist_duplicate_noop emptyDB 1 "AAPL" 10 20
    (by unfold WatchlistKeyUnique emptyDB; simp)

/-- SQLite conflict test for the `UNIQUE` constraint on the nullable
`news_articles.url` column: a NULL url never conflicts; a non-NULL url
conflicts exactly when some stored row carries the same url. -/
def urlConflict (rows : List NewsRow) : Option String → Prop
  | none => False
  | some u => ∃ r ∈ rows, r.url = some u

instance (rows : List NewsRow) (u : Option String) :
    Decidable (urlConflict rows u) := by
  unfold urlConflict
  cases u <;> infer_instance

/-- `Database.insert_news_article` (database.py lines 87-110):
`INSERT OR IGNORE INTO news_articles (ticker, headline, summary,
sentiment, source, url)`.  The only uniqueness constraint on the table is
`url TEXT UNIQUE`, so the insert is ignored exactly when the article's
url is non-NULL and already stored; `created_at` is filled by SQLite's
CURRENT_TIMESTAMP default, passed explicitly as `now`. -/
def insert_news_article (db : DB) (article : NewsInsert) (now : Int) :
    DB × Option Nat :=
  if urlConflict db.news_articles article.url then
    (db, none)
  else
    ({ db with
        news_articles := db.news_articles ++
          [{ id := db.newsNext, ticker := article.ticker
             headline := article.headline, summary := article.summary
             sentiment := article.sentiment, source := article.source
             url := article.url, created_at := now }]
        newsNext := db.newsNext + 1 },
     some db.newsNext)

/-- C6: inserting an article whose URL is already stored is a no-op (no
new row, no error, returns `none`); inserting an article with a URL not
yet stored appends a new row and returns its id, with no condition at all
on ticker or headline (so duplicates of those fields are inserted). -/
theorem insert_news_article_url_dedup (db : DB) (a b : NewsInsert)
    (u v : String) (now : Int) :
    (a.url = some u → (∃ r ∈ db.news_articles, r.url = some u) →
      insert_news_article db a now = (db, none)) ∧
    (b.url = some v → (¬∃ r ∈ db.news_articles, r.url = some v) →
      ∃ row, (insert_news_article db b now).1.news_articles =
          db.news_articles ++ [row] ∧
        (insert_news_article db b now).2 = some row.id) := by
  constructor
  · intro ha hmem
    unfold insert_news_article
    have : urlConflict db.news_articles a.url := by
      rw [ha]; exact hmem
    simp only [this, if_true]
  · intro hb hmem
    unfold insert_news_article
    have : ¬urlConflict db.news_articles b.url := by
      rw [hb]; exact hmem
    simp only [this, if_false]
    exact ⟨_, rfl, rfl⟩

/-- A concrete news article carrying a URL (the example in
`database.py`). -/
def sampleArticle : NewsInsert :=
  { ticker := "AAPL", headline := "Apple Announces New iPhone"
    summary := some "Latest model features...", sentiment := some "positive"
    source := some "TechNews", url := some "https://technews.example/a1" }

/-- A second article with the same ticker and headline but a different
URL. -/
def sampleArticle2 : NewsInsert :=
  { ticker := "AAPL", headline := "Apple Announces New iPhone"
    summary := none, sentiment := none
    source := some "OtherWire", url := some "https://otherwire.example/b7" }

/-- C6 witness: re-inserting the sample article is ignored, while an
article that duplicates its ticker and headline under a fresh URL is
inserted. -/
theorem insert_news_article_url_dedup_witness :
    (insert_news_article (insert_news_article emptyDB sampleArticle 1).1
        sampleArticle 2 =
      ((insert_news_article emptyDB sampleArticle 1).1, none)) ∧
    (∃ row, (insert_news_article
          (insert_news_article emptyDB sampleArticle 1).1
          sampleArticle2 2).1.news_articles =
        (insert_news_article emptyDB sampleArticle 1).1.news_articles ++
          [row] ∧
      (insert_news_article (insert_news_article emptyDB sampleArticle 1).1
          sampleArticle2 2).2 = some row.id) :=
  ⟨(insert_news_article_url_dedup
      (insert_news_article emptyDB sampleArticle 1).1 sampleArticle
      sampleArticle "https://technews.example/a1" "x" 2).1 rfl (by decide),
   (insert_news_article_url_dedup
      (insert_news_article emptyDB sampleArticle 1).1 sampleArticle2
      sampleArticle2 "y" "https://otherwire.example/b7" 2).2 rfl
      (by decide)⟩

/-- C10 (implicit): articles stored without a URL are never deduplicated.
A NULL url never violates the UNIQUE constraint, so every insert of a
url-less article appends a fresh row — even if every other field
duplicates an existing row. -/
theorem insert_news_article_null_url_always_inserts (db : DB)
    (a : NewsInsert) (now : Int) (h : a.url = none) :
    ∃ row, (insert_news_article db a now).1.news_articles =
        db.news_articles ++ [row] ∧
      (insert_news_article db a now).2 = some row.id ∧
      (insert_news_article db a now).1.news_articles.length =
        db.news_articles.length + 1 := by
  unfold insert_news_article
  have : ¬urlConflict db.news_articles a.url := by
    rw [h]; exact not_false
  simp only [this, if_false]
  exact ⟨_, rfl, rfl, by simp⟩

/-- A url-less article. -/
def nullUrlArticle : NewsInsert :=
  { ticker := "TSLA", headline := "Tesla Reports Strong Q3 Earnings"
    summary := some "Tesla exceeds analyst expectations"
    sentiment := some "positive", source := some "FinancialTimes"
    url := none }

/-- C10 witness: a second, field-for-field identical url-less insert
still appends a new row. -/
theorem insert_news_article_null_url_always_inserts_witness :
    ∃ row, (insert_news_article
        (insert_news_article emptyDB nullUrlArticle 1).1
        nullUrlArticle 1).1.news_articles =
      (insert_news_article emptyDB nullUrlArticle 1).1.news_articles ++
        [row] ∧
      (insert_news_article (insert_news_article emptyDB nullUrlArticle 1).1
        nullUrlArticle 1).2 = some row.id ∧
      (insert_news_article (insert_news_article emptyDB nullUrlArticle 1).1
        nullUrlArticle 1).1.news_articles.length =
      (insert_news_article emptyDB nullUrlArticle 1).1.news_articles.length
        + 1 :=
  insert_news_article_null_url_always_inserts
    (insert_news_article emptyDB nullUrlArticle 1).1 nullUrlArticle 1 rfl

/-- The ordering `ORDER BY timestamp DESC` induces on `stock_data` rows. -/
def byTimestampDesc (a b : StockDataRow) : Prop :=
  b.timestamp ≤ a.timestamp

instance : DecidableRel byTimestampDesc :=
  fun a b => inferInstanceAs (Decidable (b.timestamp ≤ a.timestamp))

instance : IsTotal StockDataRow byTimestampDesc :=
  ⟨fun a b => le_total b.timestamp a.timestamp⟩

instance : IsTrans StockDataRow byTimestampDesc :=
  ⟨fun _ _ _ hab hbc => le_trans hbc hab⟩

/-- The ordering `ORDER BY timestamp DESC` induces on prediction rows. -/
def predByTimestampDesc (a b : PredictionRow) : Prop :=
  b.timestamp ≤ a.timestamp

instance : DecidableRel predByTimestampDesc :=
  fun a b => inferInstanceAs (Decidable (b.timestamp ≤ a.timestamp))

instance : IsTotal PredictionRow predByTimestampDesc :=
  ⟨fun a b => le_total b.timestamp a.timestamp⟩

instance : IsTrans PredictionRow predByTimestampDesc :=
  ⟨fun _ _ _ hab hbc => le_trans hbc hab⟩

/-- `Database.get_stock_data` (database.py lines 132-149):
`SELECT * FROM stock_data WHERE ticker = ? ORDER BY timestamp DESC
LIMIT ?`. -/
def get_stock_data (db : DB) (ticker : String) (limit : Nat := 30) :
    List StockDataRow :=
  (((db.stock_data.filter (fun r => r.ticker = ticker)).insertionSort
    byTimestampDesc)).take limit

/-- `Database.get_latest_prediction` (database.py lines 151-167):
`SELECT * FROM predictions WHERE ticker = ? ORDER BY timestamp DESC
LIMIT 1`, then `fetchone()` — `none` when no row matched. -/
def get_latest_prediction (db : DB) (ticker : String) :
    Option PredictionRow :=
  (((db.predictions.filter (fun p => p.ticker = ticker)).insertionSort
    predByTimestampDesc)).head?

/-- C3: `get_stock_data(t, N)` returns at most N rows, every returned row
has ticker t, and the rows are ordered by timestamp descending. -/
theorem get_stock_data_spec (db : DB) (t : String) (n : Nat) :
    (get_stock_data db t n).length ≤ n ∧
    (∀ r ∈ get_stock_data db t n, r.ticker = t) ∧
    (get_stock_data db t n).Sorted byTimestampDesc := by
  refine ⟨List.length_take_le n _, ?_, ?_⟩
  · intro r hr
    have hr' := List.take_subset _ _ hr
    have hmem : r ∈ db.stock_data.filter (fun r => r.ticker = t) :=
      (List.mem_insertionSort byTimestampDesc).mp hr'
    have := (List.mem_filter.mp hmem).2
    simpa using this
  · exact (List.sorted_insertionSort byTimestampDesc _).sublist
      (List.take_sublist n _)

/-- C4: `get_latest_prediction(t)` returns a stored prediction for t
whose timestamp is maximal among all predictions for t, and returns
`none` exactly when no prediction for t exists. -/
theorem get_latest_prediction_spec (db : DB) (t : String) :
    (∀ p, get_latest_prediction db t = some p →
      p ∈ db.predictions ∧ p.ticker = t ∧
      ∀ q ∈ db.predictions, q.ticker = t → q.timestamp ≤ p.timestamp) ∧
    (get_latest_prediction db t = none ↔
      ∀ q ∈ db.predictions, q.ticker ≠ t) := by
  constructor
  · intro p hp
    unfold get_latest_prediction at hp
    cases hcons : (db.predictions.filter (fun p => p.ticker = t)).insertionSort
        predByTimestampDesc with
    | nil => rw [hcons] at hp; simp at hp
    | cons a rest =>
      rw [hcons] at hp
      simp only [List.head?_cons, Option.some.injEq] at hp
      subst hp
      have hmem : a ∈ db.predictions.filter (fun p => p.ticker = t) := by
        have hms : a ∈ (db.predictions.filter
            (fun p => p.ticker = t)).insertionSort predByTimestampDesc := by
          rw [hcons]; exact List.mem_cons_self _ _
        exact (List.mem_insertionSort _).mp hms
      refine ⟨(List.mem_filter.mp hmem).1,
        by simpa using (List.mem_filter.mp hmem).2, ?_⟩
      intro q hq hqt
      have hqf : q ∈ db.predictions.filter (fun p => p.ticker = t) :=
        List.mem_filter.mpr ⟨hq, by simpa using hqt⟩
      have hqs : q ∈ (db.predictions.filter
          (fun p => p.ticker = t)).insertionSort predByTimestampDesc :=
        (List.mem_insertionSort _).mpr hqf
      rw [hcons] at hqs
      rcases List.mem_cons.mp hqs with rfl | hqs
      · exact le_refl _
      · have hsorted := List.sorted_insertionSort predByTimestampDesc
          (db.predictions.filter (fun p => p.ticker = t))
        rw [hcons] at hsorted
        exact List.rel_of_sorted_cons hsorted q hqs
  · unfold get_latest_prediction
    constructor
    · intro hnone q hq hqt
      have hqf : q ∈ db.predictions.filter (fun p => p.ticker = t) :=
        List.mem_filter.mpr ⟨hq, by simpa using hqt⟩
      have hqs := (List.mem_insertionSort predByTimestampDesc).mpr hqf
      rw [List.head?_eq_none_iff.mp hnone] at hqs
      simp at hqs
    · intro h
      have hnil : db.predictions.filter (fun p => p.ticker = t) = [] := by
        rw [List.filter_eq_nil_iff]
        intro q hq
        simpa using h q hq
      rw [hnil]
      rfl

/-- A concrete prediction row (from the self-test in `database.py`). -/
def samplePrediction : PredictionRow :=
  { id := 1, ticker := "AAPL", predicted_trend := "up"
    confidence := 1, predicted_change := some 2
    model_version := "test_v1.0", timestamp := 100 }

/-- A database holding exactly one prediction. -/
def dbOnePrediction : DB :=
  { emptyDB with predictions := [samplePrediction], predictionsNext := 2 }

/-- C4 witness: on a database with a single AAPL prediction, the lookup
returns it and it is maximal; for MSFT the lookup returns `none`. -/
theorem get_latest_prediction_spec_witness :
    (samplePrediction ∈ dbOnePrediction.predictions ∧
      samplePrediction.ticker = "AAPL" ∧
      ∀ q ∈ dbOnePrediction.predictions, q.ticker = "AAPL" →
        q.timestamp ≤ samplePrediction.timestamp) ∧
    (get_latest_prediction dbOnePrediction "MSFT" = none ↔
      ∀ q ∈ dbOnePrediction.predictions, q.ticker ≠ "MSFT") :=
  ⟨(get_latest_prediction_spec dbOnePrediction "AAPL").1 samplePrediction
      (by decide),
   (get_latest_prediction_spec dbOnePrediction "MSFT").2⟩

/-- The parsed JSON body of a provider response from `GET /stock/candle`
(finnhub_client.py): status field `s` and the parallel arrays
open/high/low/close/volume/time. -/
structure CandleResponse where
  s : String
  o : List Rat
  h : List Rat
  l : List Rat
  c : List Rat
  v : List Int
  t : List Int
  deriving Repr, DecidableEq

/-- One formatted OHLCV record produced by
`FinnhubStockData.get_stock_candles`. -/
structure CandleRecord where
  ticker : String
  open_ : Rat
  high : Rat
  low : Rat
  close : Rat
  volume : Int
  timestamp : Int
  deriving Repr, DecidableEq

/-- What `requests.get(...)` followed by `response.raise_for_status()`
can produce, as seen by the `try` block of `get_stock_candles`:
a timeout (`requests.exceptions.Timeout`), another request error
(`requests.exceptions.RequestException`, including HTTP error statuses
raised by `raise_for_status`), any other unexpected exception, or a
successful response with a parsed JSON body. -/
inductive FetchOutcome where
  | timeout
  | requestError
  | unexpectedError
  | response (resp : CandleResponse)
  deriving Repr, DecidableEq

/-- The body of the Python loop `for i in range(len(data.t))`: indexing
each parallel array at `i`, `none` when any index is out of range
(an IndexError in Python). -/
def candleAt (ticker : String) (resp : CandleResponse) (i : Nat) :
    Option CandleRecord :=
  match resp.o.get? i, resp.h.get? i, resp.l.get? i,
      resp.c.get? i, resp.v.get? i, resp.t.get? i with
  | some o, some h, some l, some c, some v, some t =>
    some { ticker := ticker, open_ := o, high := h, low := l, close := c
           volume := v, timestamp := t }
  | _, _, _, _, _, _ => none

/-- The transposition loop of `get_stock_candles`.  If any array access
raises (arrays shorter than `t`), the exception is caught by the
catch-all handler and the call returns the empty list. -/
def formatCandles (ticker : String) (resp : CandleResponse) :
    List CandleRecord :=
  match (List.range resp.t.length).mapM (candleAt ticker resp) with
  | some rows => rows
  | none => []

/-- `FinnhubStockData.get_stock_candles` (finnhub_client.py lines
25-89), as a total function of the request outcome: every failure mode
of the `try` block is caught and mapped to `[]`, a `no_data` status and
any other non-"ok" status also map to `[]`, and only an "ok" response is
transposed into records. -/
def get_stock_candles (ticker : String) (outcome : FetchOutcome) :
    List CandleRecord :=
  match outcome with
  | .timeout => []
  | .requestError => []
  | .unexpectedError => []
  | .response resp =>
    if resp.s = "no_data" then []
    else if resp.s ≠ "ok" then []
    else formatCandles ticker resp

/-- C7: `get_stock_candles` never raises — it is a total function of the
fetch outcome — and it returns the empty list on a "no_data" provider
status, on any other non-"ok" status, and on timeout, network error, or
any unexpected exception. -/
theorem get_stock_candles_failure_modes (ticker : String) :
    get_stock_candles ticker .timeout = [] ∧
    get_stock_candles ticker .requestError = [] ∧
    get_stock_candles ticker .unexpectedError = [] ∧
    (∀ resp : CandleResponse, resp.s = "no_data" →
      get_stock_candles ticker (.response resp) = []) ∧
    (∀ resp : CandleResponse, resp.s ≠ "ok" →
      get_stock_candles ticker (.response resp) = []) := by
  refine ⟨rfl, rfl, rfl, ?_, ?_⟩
  · intro resp hs
    simp [get_stock_candles, hs]
  · intro resp hs
    by_cases hnd : resp.s = "no_data" <;>
      simp [get_stock_candles, hnd, hs]

/-- C7 witness: concrete "no_data" and "error" responses both yield the
empty list. -/
theorem get_stock_candles_failure_modes_witness :
    get_stock_candles "AAPL"
        (.response { s := "no_data", o := [], h := [], l := [], c := []
                     v := [], t := [] }) = [] ∧
    get_stock_candles "AAPL"
        (.response { s := "error", o := [270], h := [272], l := [269]
                     c := [271], v := [1], t := [5] }) = [] :=
  ⟨(get_stock_candles_failure_modes "AAPL").2.2.2.1 _ rfl,
   (get_stock_candles_failure_modes "AAPL").2.2.2.2 _ (by decide)⟩

/-- `Database.insert_prediction` (database.py lines 62-85): a plain
`INSERT INTO predictions` with no uniqueness constraint — it always
appends and returns the new rowid.  The stored `timestamp` is SQLite's
CURRENT_TIMESTAMP default, passed explicitly as `now`. -/
def insert_prediction (db : DB) (p : PredictionInsert) (now : Int) :
    DB × Option Nat :=
  ({ db with
      predictions := db.predictions ++
        [{ id := db.predictionsNext, ticker := p.ticker
           predicted_trend := p.predicted_trend, confidence := p.confidence
           predicted_change := p.predicted_change
           model_version := p.model_version, timestamp := now }]
      predictionsNext := db.predictionsNext + 1 },
   some db.predictionsNext)

/-- The fixed six-stock reference list of setup_database.py lines 116-123
(also produced by `generate_sample_stocks` in seed_data.py). -/
def sampleStocks : List (String × String × String) :=
  [("AAPL", "Apple Inc.", "Technology"),
   ("MSFT", "Microsoft Corporation", "Technology"),
   ("GOOGL", "Alphabet Inc.", "Technology"),
   ("TSLA", "Tesla Inc.", "Automotive"),
   ("NVDA", "NVIDIA Corporation", "Technology"),
   ("AMZN", "Amazon.com Inc.", "E-commerce")]

/-- One iteration of the sample-stock loop of setup_database.py lines
125-129: a plain INSERT whose IntegrityError (the UNIQUE ticker
constraint) is caught and ignored. -/
def insertStockIgnoringDup (db : DB) (s : String × String × String) : DB :=
  if ∃ r ∈ db.stocks, r.ticker = s.1 then db
  else
    { db with
        stocks := db.stocks ++
          [{ id := db.stocksNext, ticker := s.1, name := s.2.1
             sector := s.2.2 }]
        stocksNext := db.stocksNext + 1 }

/-- setup_database.py: `CREATE TABLE IF NOT EXISTS ...` for every table
(a no-op on the state model, which always carries all tables) followed by
the six sample-stock inserts, each ignoring duplicates. -/
def setup_database (db : DB) : DB :=
  sampleStocks.foldl insertStockIgnoringDup db

/-- The fixed watchlists of `generate_sample_watchlists`
(seed_data.py lines 103-119). -/
def sampleWatchlists : List (Nat × List String) :=
  [(1, ["AAPL", "MSFT", "GOOGL"]),
   (2, ["TSLA", "NVDA"]),
   (3, ["AAPL", "TSLA", "AMZN", "NVDA"])]

/-- load_seed_data.py: replay the generated predictions (whose trend,
confidence and change are randomized, so they are a parameter here) and
the fixed watchlists through the data access layer.  Stocks and news are
not loaded by this script. -/
def load_seed_data (preds : List (PredictionInsert × Int)) (now : Int)
    (db : DB) : DB :=
  sampleWatchlists.foldl
    (fun d w => w.2.foldl (fun d t => (add_to_watchlist d w.1 t now).1) d)
    (preds.foldl (fun d pr => (insert_prediction d pr.1 pr.2).1) db)

/-- One repetition of the seed pipeline: schema setup with its fixed
six-stock reference insert, then fixture generation (the randomized
prediction payloads `run.1` and load clock `run.2`) and loading. -/
def seedPipeline (run : List (PredictionInsert × Int) × Int) (db : DB) :
    DB :=
  load_seed_data run.1 run.2 (setup_database db)

/-- `ORDER BY ticker` (ascending) on stock rows.  SQLite's default
BINARY collation orders TEXT by byte value, modelled as lexicographic
order on the character list. -/
def byTickerAsc (a b : StockRow) : Prop :=
  a.ticker.toList ≤ b.ticker.toList

instance : DecidableRel byTickerAsc :=
  fun a b => inferInstanceAs (Decidable (a.ticker.toList ≤ b.ticker.toList))

instance : IsTotal StockRow byTickerAsc :=
  ⟨fun a b => le_total a.ticker.toList b.ticker.toList⟩

instance : IsTrans StockRow byTickerAsc :=
  ⟨fun _ _ _ h1 h2 => le_trans (α := List Char) h1 h2⟩

/-- `Database.get_all_stocks` (database.py lines 206-217):
`SELECT * FROM stocks ORDER BY ticker`. -/
def get_all_stocks (db : DB) : List StockRow :=
  db.stocks.insertionSort byTickerAsc

/-- The stock reference rows present after the first run of
setup_database.py on a fresh database (insertion order of the loop,
rowids 1..6). -/
def sixStocks : List StockRow :=
  [{ id := 1, ticker := "AAPL", name := "Apple Inc."
     sector := "Technology" },
   { id := 2, ticker := "MSFT", name := "Microsoft Corporation"
     sector := "Technology" },
   { id := 3, ticker := "GOOGL", name := "Alphabet Inc."
     sector := "Technology" },
   { id := 4, ticker := "TSLA", name := "Tesla Inc."
     sector := "Automotive" },
   { id := 5, ticker := "NVDA", name := "NVIDIA Corporation"
     sector := "Technology" },
   { id := 6, ticker := "AMZN", name := "Amazon.com Inc."
     sector := "E-commerce" }]

theorem foldl_preserves_stocks {β : Type} (f : DB → β → DB)
    (hf : ∀ d b, (f d b).stocks = d.stocks) :
    ∀ (l : List β) (d : DB), (l.foldl f d).stocks = d.stocks
  | [], _ => rfl
  | b :: l, d => by
    rw [List.foldl_cons, foldl_preserves_stocks f hf l (f d b), hf]

theorem insert_prediction_stocks (d : DB) (p : PredictionInsert)
    (now : Int) : (insert_prediction d p now).1.stocks = d.stocks := rfl

theorem add_to_watchlist_stocks (d : DB) (u : Nat) (t : String)
    (now : Int) : (add_to_watchlist d u t now).1.stocks = d.stocks := by
  unfold add_to_watchlist
  split <;> rfl

theorem load_seed_data_stocks (preds : List (PredictionInsert × Int))
    (now : Int) (db : DB) :
    (load_seed_data preds now db).stocks = db.stocks := by
  unfold load_seed_data
  have h2 : ∀ (d : DB) (w : Nat × List String),
      ((fun (d : DB) (w : Nat × List String) => w.2.foldl
        (fun d t => (add_to_watchlist d w.1 t now).1) d) d w).stocks =
        d.stocks :=
    fun d w => foldl_preserves_stocks _
      (fun d t => add_to_watchlist_stocks d w.1 t now) w.2 d
  rw [foldl_preserves_stocks _ h2 sampleWatchlists _,
    foldl_preserves_stocks _
      (fun d pr => insert_prediction_stocks d pr.1 pr.2) preds db]

theorem insertStockIgnoringDup_of_mem (db : DB)
    (s : String × String × String)
    (h : ∃ r ∈ db.stocks, r.ticker = s.1) :
    insertStockIgnoringDup db s = db := by
  unfold insertStockIgnoringDup
  simp only [h, if_true]

theorem foldl_insertStock_noop (db : DB) :
    ∀ l : List (String × String × String),
      (∀ s ∈ l, ∃ r ∈ db.stocks, r.ticker = s.1) →
      l.foldl insertStockIgnoringDup db = db
  | [], _ => rfl
  | s :: l, h => by
    rw [List.foldl_cons,
      insertStockIgnoringDup_of_mem db s (h s (List.mem_cons_self s l)),
      foldl_insertStock_noop db l (fun x hx => h x (List.mem_cons_of_mem s hx))]

theorem setup_database_noop (db : DB) (h : db.stocks = sixStocks) :
    setup_database db = db := by
  unfold setup_database
  apply foldl_insertStock_noop
  intro s hs
  rw [h]
  simp only [sampleStocks, List.mem_cons, List.not_mem_nil, or_false] at hs
  rcases hs with rfl | rfl | rfl | rfl | rfl | rfl <;> decide

theorem seedPipeline_stocks_first
    (run : List (PredictionInsert × Int) × Int) :
    (seedPipeline run emptyDB).stocks = sixStocks := by
  unfold seedPipeline
  rw [load_seed_data_stocks]
  decide

theorem seedPipeline_stocks_stable
    (run : List (PredictionInsert × Int) × Int) (db : DB)
    (h : db.stocks = sixStocks) :
    (seedPipeline run db).stocks = sixStocks := by
  unfold seedPipeline
  rw [load_seed_data_stocks, setup_database_noop db h, h]

theorem foldl_seedPipeline_stocks :
    ∀ (runs : List (List (PredictionInsert × Int) × Int)) (db : DB),
      db.stocks = sixStocks →
      (runs.foldl (fun d run => seedPipeline run d) db).stocks = sixStocks
  | [], _, h => h
  | r :: rs, db, h => by
    rw [List.foldl_cons]
    exact foldl_seedPipeline_stocks rs (seedPipeline r db)
      (seedPipeline_stocks_stable r db h)

/-- C8: running the seed pipeline (schema setup with its fixed six-stock
reference insert, then fixture generation and loading) any positive
number of times — with arbitrary randomized prediction payloads each
time — leaves `get_all_stocks()` returning exactly the fixed six-ticker
reference set, ordered by ticker ascending. -/
theorem seed_pipeline_idempotent_on_stocks
    (runs : List (List (PredictionInsert × Int) × Int)) (h : runs ≠ []) :
    (get_all_stocks
        (runs.foldl (fun d run => seedPipeline run d) emptyDB)).map
      (fun s => s.ticker) =
      ["AAPL", "AMZN", "GOOGL", "MSFT", "NVDA", "TSLA"] := by
  obtain ⟨r, rs, rfl⟩ := List.exists_cons_of_ne_nil h
  rw [List.foldl_cons]
  have hst : (rs.foldl (fun d run => seedPipeline run d)
      (seedPipeline r emptyDB)).stocks = sixStocks :=
    foldl_seedPipeline_stocks rs (seedPipeline r emptyDB)
      (seedPipeline_stocks_first r)
  unfold get_all_stocks
  rw [hst]
  decide

/-- C8 witness: a single pipeline run with an empty prediction fixture. -/
theorem seed_pipeline_idempotent_on_stocks_witness :
    (get_all_stocks
        ([(([] : List (PredictionInsert × Int)), (0 : Int))].foldl
          (fun d run => seedPipeline run d) emptyDB)).map
      (fun s => s.ticker) =
      ["AAPL", "AMZN", "GOOGL", "MSFT", "NVDA", "TSLA"] :=
  seed_pipeline_idempotent_on_stocks [([], 0)] (by decide)

/-- `Database.get_connection` (database.py lines 17-30).  `body` is the
SQL work executed inside the `with` block: it either produces a new
database state and a return value, or raises a storage error (carried as
`Except.error`).  The context manager commits on success (the body's
state becomes the stored state), and on any exception rolls the
transaction back (the stored state is the original one), logs, and
re-raises the same error.  The body runs exactly once: there is no
retry. -/
def with_connection {α : Type} (body : DB → Except String (DB × α))
    (db : DB) : DB × Except String α :=
  match body db with
  | .ok (db2, a) => (db2, .ok a)
  | .error e => (db, .error e)

/-- C9: for every data-access operation run through the connection
wrapper, a storage error leaves the stored state exactly as it was
(rollback, no partial commit) and surfaces the same error to the caller
(re-raise, no retry), while a successful body is committed in full. -/
theorem with_connection_commit_rollback {α : Type}
    (body : DB → Except String (DB × α)) (db : DB) :
    (∀ e, body db = .error e →
      with_connection body db = (db, .error e)) ∧
    (∀ db2 a, body db = .ok (db2, a) →
      with_connection body db = (db2, .ok a)) := by
  constructor
  · intro e he
    unfold with_connection
    rw [he]
  · intro db2 a hok
    unfold with_connection
    rw [hok]

/-- The prediction payload used by the self-test in `database.py`. -/
def samplePredictionInsert : PredictionInsert :=
  { ticker := "AAPL", predicted_trend := "up", confidence := 1
    predicted_change := some 2, model_version := "test_v1.0" }

/-- C9 witness: a body raising an integrity error rolls back to the
original (empty) state and re-raises; a successful `insert_prediction`
body is committed. -/
theorem with_connection_commit_rollback_witness :
    with_connection
        (fun _ => (.error "IntegrityError" : Except String (DB × Option Nat)))
        emptyDB = (emptyDB, .error "IntegrityError") ∧
    with_connection
        (fun d => .ok (insert_prediction d samplePredictionInsert 100))
        emptyDB =
      ((insert_prediction emptyDB samplePredictionInsert 100).1,
       .ok (insert_prediction emptyDB samplePredictionInsert 100).2) :=
  ⟨(with_connection_commit_rollback
      (fun _ => (.error "IntegrityError" : Except String (DB × Option Nat)))
      emptyDB).1 "IntegrityError" rfl,
   (with_connection_commit_rollback
      (fun d => .ok (insert_prediction d samplePredictionInsert 100))
      emptyDB).2 (insert_prediction emptyDB samplePredictionInsert 100).1
      (insert_prediction emptyDB samplePredictionInsert 100).2 rfl⟩
